import Mathlib

/-!
Verification of the xhshow payload/digest engine.

The definitions below are a shallow embedding of the Python sources:
`src/xhshow/core/crypto.py` (payload builder and custom hash),
`src/xhshow/session.py` (session state machine),
`src/xhshow/utils/url_utils.py` (API-path extraction), with the constants
taken from `src/xhshow/config/config.py`.  Machine integers are modelled as
`Nat` with explicit `% 2^w` where the Python code masks with `& 0xFFFFFFFF`
(or where CPython's arbitrary-precision ints are concretely bounded).
External collaborators that are not part of the analyzed core (the random
provider, the wall clock, and the stdlib MD5 digest) are passed in as
explicit parameters, mirroring the code's single draw / single clock read.
-/

namespace Xhshow

/-! ## Constants from `config/config.py` (class `CryptoConfig`) -/

def VERSION_BYTES : List Nat := [121, 104, 96, 41]

def PAYLOAD_LENGTH : Nat := 144

def A1_LENGTH : Nat := 52

def APP_ID_LENGTH : Nat := 10

def MD5_XOR_LENGTH : Nat := 8

/-- Config constant `A3_PREFIX` (renamed). -/
def A3_LEAD : List Nat := [2, 97, 51, 16]

def TIMESTAMP_LE_LENGTH : Nat := 8

def ENV_TABLE : List Nat :=
  [115, 248, 83, 102, 103, 201, 181, 131, 99, 94, 4, 68, 250, 132, 21]

def ENV_CHECKS_DEFAULT : List Nat :=
  [0, 1, 18, 1, 0, 0, 0, 0, 0, 0, 3, 0, 0, 0, 0]

def SESSION_SEQUENCE_INIT_MIN : Nat := 15
def SESSION_SEQUENCE_INIT_MAX : Nat := 17
def SESSION_SEQUENCE_STEP_MIN : Nat := 0
def SESSION_SEQUENCE_STEP_MAX : Nat := 1
def SESSION_WINDOW_PROPS_INIT_MIN : Nat := 1000
def SESSION_WINDOW_PROPS_INIT_MAX : Nat := 2000
def SESSION_WINDOW_PROPS_STEP_MIN : Nat := 1
def SESSION_WINDOW_PROPS_STEP_MAX : Nat := 10

/-! ## Bit/integer codec (`CryptoProcessor._int_to_le_bytes`, `_rotate_left`) -/

/-- Models `x & self.config.MAX_32BIT` (with `MAX_32BIT = 0xFFFFFFFF`). -/
def mask32 (x : Nat) : Nat := x % 4294967296

/-- Models `CryptoProcessor._rotate_left`. -/
def rotate_left (val n : Nat) : Nat := mask32 ((val <<< n) ||| (val >>> (32 - n)))

/-- Models `CryptoProcessor._int_to_le_bytes`: `length` bytes of `val`, LSB first. -/
def int_to_le_bytes (val length : Nat) : List Nat :=
  match length with
  | 0 => []
  | n + 1 => val % 256 :: int_to_le_bytes (val / 256) n

/-! ## Digest mixer (`CryptoProcessor._custom_hash_v2`) -/

structure HState where
  s0 : Nat
  s1 : Nat
  s2 : Nat
  s3 : Nat
deriving DecidableEq, Repr

/-- Little-endian 32-bit word from (up to) 4 bytes, as `struct.unpack("<II", ...)`
decodes each half of an 8-byte block. -/
def word_le (bs : List Nat) : Nat :=
  bs.getD 0 0 + 256 * bs.getD 1 0 + 65536 * bs.getD 2 0 + 16777216 * bs.getD 3 0

/-- One iteration of the block loop of `_custom_hash_v2` (lines 54-60 of
`crypto.py`): sequential update, the fresh `s0` feeds the `s2` update. -/
def hash_round (s : HState) (blk : List Nat) : HState :=
  let v0 := word_le (blk.take 4)
  let v1 := word_le (blk.drop 4)
  let s0 := rotate_left (mask32 (s.s0 + v0) ^^^ s.s2) 7
  let s1 := rotate_left (mask32 ((v0 ^^^ s.s1) + s.s3)) 11
  let s2 := rotate_left (mask32 (s.s2 + v1) ^^^ s0) 13
  let s3 := rotate_left (mask32 ((s.s3 ^^^ v1) + s1)) 17
  ⟨s0, s1, s2, s3⟩

/-- The block loop `for i in range(length // 8)`: the first argument is the
iteration count `length // 8`; each iteration consumes the next 8 bytes. -/
def hash_blocks : Nat → List Nat → HState → HState
  | 0, _, s => s
  | n + 1, bytes, s => hash_blocks n (bytes.drop 8) (hash_round s (bytes.take 8))

/-- The tail of `_custom_hash_v2` after the block loop: finalization,
rotations, final mix and little-endian output (lines 62-80 of `crypto.py`).
Takes the input length and the post-loop state. -/
def hash_finalize (length : Nat) (st : HState) : List Nat :=
  let t0 := st.s0 ^^^ length
  let t1 := st.s1 ^^^ t0
  let t2 := mask32 (st.s2 + t1)
  let t3 := st.s3 ^^^ t2
  let rot_t0 := rotate_left t0 9
  let rot_t1 := rotate_left t1 13
  let rot_t2 := rotate_left t2 17
  let rot_t3 := rotate_left t3 19
  let f0 := mask32 (rot_t0 + rot_t2)
  let f1 := rot_t1 ^^^ rot_t3
  let f2 := mask32 (rot_t2 + f0)
  let f3 := rot_t3 ^^^ f1
  int_to_le_bytes f0 4 ++ int_to_le_bytes f1 4 ++ int_to_le_bytes f2 4 ++
    int_to_le_bytes f3 4

/-- Models `CryptoProcessor._custom_hash_v2`.  `HASH_IV = (1831565813, 461845907,
2246822507, 3266489909)`.  Note the length fold (`s0 ^= length`, ...,
`s3 ^= length << 24`) carries no 32-bit mask in the Python source. -/
def custom_hash_v2 (input_bytes : List Nat) : List Nat :=
  let length := input_bytes.length
  let s0 := 1831565813 ^^^ length
  let s1 := 461845907 ^^^ (length <<< 8)
  let s2 := 2246822507 ^^^ (length <<< 16)
  let s3 := 3266489909 ^^^ (length <<< 24)
  let st := hash_blocks (length / 8) input_bytes ⟨s0, s1, s2, s3⟩
  hash_finalize length st

/-! ## Digest mixer as the specification words it (claim C1)

A second, independent definition that follows the spec's text: identical
rounds, finalization and output, but the length fold is "masked to 32 bits"
as the spec states. -/

/-- One spec round: `s0 = rotl32((s0+v0)^s2, 7)`, `s1 = rotl32((v0^s1)+s3, 11)`,
`s2 = rotl32((s2+v1)^s0, 13)`, `s3 = rotl32((s3^v1)+s1, 17)`, additions mod
2^32, already-updated `s0` used in the `s2` update. -/
def spec_round (s : HState) (blk : List Nat) : HState :=
  let v0 := word_le (blk.take 4)
  let v1 := word_le (blk.drop 4)
  let s0 := rotate_left (mask32 (s.s0 + v0) ^^^ s.s2) 7
  let s1 := rotate_left (mask32 ((v0 ^^^ s.s1) + s.s3)) 11
  let s2 := rotate_left (mask32 (s.s2 + v1) ^^^ s0) 13
  let s3 := rotate_left (mask32 ((s.s3 ^^^ v1) + s1)) 17
  ⟨s0, s1, s2, s3⟩

def spec_blocks : Nat → List Nat → HState → HState
  | 0, _, s => s
  | n + 1, bytes, s => spec_blocks n (bytes.drop 8) (spec_round s (bytes.take 8))

/-- The digest mixer exactly as claim C1 / spec section 4.2 words it, with the
length fold masked to 32 bits. -/
def spec_digest_mixer (input : List Nat) : List Nat :=
  let len := input.length
  let s0 := mask32 (1831565813 ^^^ len)
  let s1 := mask32 (461845907 ^^^ (len <<< 8))
  let s2 := mask32 (2246822507 ^^^ (len <<< 16))
  let s3 := mask32 (3266489909 ^^^ (len <<< 24))
  let st := spec_blocks (len / 8) input ⟨s0, s1, s2, s3⟩
  let t0 := st.s0 ^^^ len
  let t1 := st.s1 ^^^ t0
  let t2 := mask32 (st.s2 + t1)
  let t3 := st.s3 ^^^ t2
  let rt0 := rotate_left t0 9
  let rt1 := rotate_left t1 13
  let rt2 := rotate_left t2 17
  let rt3 := rotate_left t3 19
  let m0 := mask32 (rt0 + rt2)
  let m1 := rt1 ^^^ rt3
  let m2 := mask32 (rt2 + m0)
  let m3 := rt3 ^^^ m1
  int_to_le_bytes m0 4 ++ int_to_le_bytes m1 4 ++ int_to_le_bytes m2 4 ++
    int_to_le_bytes m3 4

/-! ## Session state machine (`session.py`) -/

/-- Models `SignState` (NamedTuple): immutable snapshot of a signing operation.
The Python fields are ints that are in fact always non-negative (wall-clock
milliseconds, counters initialized and stepped within non-negative ranges,
a string length), so they are modelled as `Nat`. -/
structure SignState where
  page_load_timestamp : Nat
  sequence_value : Nat
  window_props_length : Nat
  uri_length : Nat
deriving DecidableEq, Repr

/-- Mutable state of `SessionManager`: `page_load_timestamp` fixed at
construction, plus the two evolving counters. -/
structure SessionManager where
  page_load_timestamp : Nat
  sequence_value : Nat
  window_props_length : Nat
deriving DecidableEq, Repr

/-- Models `SessionManager.update_state`, with the two `random.randint` draws passed
in explicitly (`seqStep` from `[SESSION_SEQUENCE_STEP_MIN,
SESSION_SEQUENCE_STEP_MAX]`, `winStep` from
`[SESSION_WINDOW_PROPS_STEP_MIN, SESSION_WINDOW_PROPS_STEP_MAX]`). -/
def update_state (m : SessionManager) (seqStep winStep : Nat) : SessionManager :=
  { m with
    sequence_value := m.sequence_value + seqStep
    window_props_length := m.window_props_length + winStep }

/-- Models `SessionManager.get_current_state`: advances the state, then returns the
snapshot together with the new machine state.  `uri.length` models Python's
`len(uri)` (number of code points). -/
def get_current_state (m : SessionManager) (seqStep winStep : Nat) (uri : String) :
    SessionManager × SignState :=
  let m2 := update_state m seqStep winStep
  (m2, ⟨m2.page_load_timestamp, m2.sequence_value, m2.window_props_length, uri.length⟩)

/-- Successive `get_current_state` calls: one entry per call, carrying that
call's two random step draws and its uri argument.  Returns the snapshots in
call order. -/
def run_session (m : SessionManager) : List (Nat × Nat × String) → List SignState
  | [] => []
  | (a, b, u) :: rest =>
    let r := get_current_state m a b u
    r.2 :: run_session r.1 rest

/-! ## API-path extraction (`utils/url_utils.py`) -/

/-- Models `extract_api_path`, on the string's character list.  `List.findIdx?`
models Python `str.find` (`-1` becoming `none`). -/
def extract_api_path (uri_with_data : List Char) : List Char :=
  match uri_with_data.findIdx? (fun c => c = '\x7b'),
      uri_with_data.findIdx? (fun c => c = '?') with
  | some b, some q => uri_with_data.take (min b q)
  | some b, none => uri_with_data.take b
  | none, some q => uri_with_data.take q
  | none, none => uri_with_data

/-! ## UTF-8 encoding (Python `str.encode("utf-8")`) -/

/-- Standard UTF-8 encoding of one code point, as `str.encode("utf-8")`
produces it. -/
def utf8Char (c : Char) : List Nat :=
  let n := c.toNat
  if n < 128 then [n]
  else if n < 2048 then [192 ||| (n >>> 6), 128 ||| (n &&& 63)]
  else if n < 65536 then
    [224 ||| (n >>> 12), 128 ||| ((n >>> 6) &&& 63), 128 ||| (n &&& 63)]
  else
    [240 ||| (n >>> 18), 128 ||| ((n >>> 12) &&& 63), 128 ||| ((n >>> 6) &&& 63),
      128 ||| (n &&& 63)]

/-- UTF-8 byte sequence of a character list (`s.encode("utf-8")`). -/
def utf8Encode (cs : List Char) : List Nat := cs.flatMap utf8Char

/-! ## Hex decoding (Python `bytes.fromhex`) -/

/-- Value of one hex digit, `none` for any other character. -/
def hexDigitVal (c : Char) : Option Nat :=
  if '0' ≤ c ∧ c ≤ '9' then some (c.toNat - 48)
  else if 'a' ≤ c ∧ c ≤ 'f' then some (c.toNat - 87)
  else if 'A' ≤ c ∧ c ≤ 'F' then some (c.toNat - 55)
  else none

/-- ASCII whitespace skipped by `bytes.fromhex` between byte pairs. -/
def isHexWs (c : Char) : Bool :=
  c = ' ' || c = '\t' || c = '\n' || c = '\r' || c = '\x0b' || c = '\x0c'

/-- Models `bytes.fromhex`: whitespace may separate byte pairs; each byte needs two
adjacent hex digits; anything else raises `ValueError` (`none` here). -/
def hexDecode : List Char → Option (List Nat)
  | [] => some []
  | c :: cs =>
    if isHexWs c then hexDecode cs
    else
      match hexDigitVal c, cs with
      | some hi, d :: cs2 =>
        (match hexDigitVal d with
         | some lo => (hexDecode cs2).map (fun rest => (hi * 16 + lo) :: rest)
         | none => none)
      | _, _ => none

/-! ## Payload builder (`CryptoProcessor.build_payload_array`) -/

/-- The two ways `build_payload_array` can raise: `ValueError` from
`bytes.fromhex(hex_parameter)` (line 141), and `IndexError` from
`md5_bytes[i]` for `i < 8` when fewer than 8 bytes were decoded (line 142). -/
inductive BuildError where
  | hexDecodeError
  | indexError
deriving DecidableEq, Repr

/-- Models `l.ljust(width, fill)` on byte lists. -/
def ljust (l : List Nat) (width fill : Nat) : List Nat :=
  l ++ List.replicate (width - l.length) fill

/-- Models `CryptoProcessor.build_payload_array`.  External effects are passed in
explicitly: `md5Path` stands for the stdlib composite `hashlib.md5(·)
.hexdigest()` decoded into 16 bytes (lines 160-161); `seed` is the one
`generate_random_int()` draw; `tsMs` is `int(timestamp * 1000)`; `effTsMs`
is `int((timestamp - time_offset) * 1000)` for the drawn offset; `seqDraw`
and `winDraw` are the two `generate_random_byte_in_range` draws of the
no-snapshot branch. -/
def build_payload_array (md5Path : List Nat → List Nat)
    (seed tsMs effTsMs seqDraw winDraw : Nat)
    (hex_parameter a1_value app_identifier string_param : String)
    (sign_state : Option SignState) : Except BuildError (List Nat) :=
  let seed_byte := seed % 256
  let ts_bytes := int_to_le_bytes tsMs TIMESTAMP_LE_LENGTH
  let state_bytes :=
    match sign_state with
    | some st =>
      int_to_le_bytes st.page_load_timestamp TIMESTAMP_LE_LENGTH ++
        int_to_le_bytes st.sequence_value 4 ++
        int_to_le_bytes st.window_props_length 4 ++
        int_to_le_bytes st.uri_length 4
    | none =>
      int_to_le_bytes effTsMs TIMESTAMP_LE_LENGTH ++
        int_to_le_bytes seqDraw 4 ++
        int_to_le_bytes winDraw 4 ++
        int_to_le_bytes (utf8Encode string_param.data).length 4
  match hexDecode hex_parameter.data with
  | none => .error .hexDecodeError
  | some md5_bytes =>
    if MD5_XOR_LENGTH ≤ md5_bytes.length then
      let a1_bytes := ljust ((utf8Encode a1_value.data).take A1_LENGTH) A1_LENGTH 0
      let app_bytes :=
        ljust ((utf8Encode app_identifier.data).take APP_ID_LENGTH) APP_ID_LENGTH 0
      let part11 :=
        [1, seed_byte ^^^ ENV_TABLE.getD 0 0] ++
          (List.range' 1 14).map (fun i => ENV_TABLE.getD i 0 ^^^ ENV_CHECKS_DEFAULT.getD i 0)
      let md5_path_bytes := md5Path (utf8Encode (extract_api_path string_param.data))
      let digest := (custom_hash_v2 (ts_bytes ++ md5_path_bytes)).map (fun b => b ^^^ seed_byte)
      .ok (VERSION_BYTES ++ int_to_le_bytes seed 4 ++ ts_bytes ++ state_bytes ++
        (md5_bytes.take MD5_XOR_LENGTH).map (fun b => b ^^^ seed_byte) ++
        (a1_bytes.length :: a1_bytes) ++ (app_bytes.length :: app_bytes) ++
        part11 ++ A3_LEAD ++ digest)
    else .error .indexError

/-! ## Little-endian decoding (verification vocabulary) -/

/-- Value of a little-endian byte list. -/
def le_decode : List Nat → Nat
  | [] => 0
  | b :: bs => b + 256 * le_decode bs

/-! ## Payload segments (verification vocabulary for the builder output) -/

def state_block (effTsMs seqDraw winDraw : Nat) (string_param : String) :
    Option SignState → List Nat
  | some st =>
    int_to_le_bytes st.page_load_timestamp TIMESTAMP_LE_LENGTH ++
      int_to_le_bytes st.sequence_value 4 ++
      int_to_le_bytes st.window_props_length 4 ++
      int_to_le_bytes st.uri_length 4
  | none =>
    int_to_le_bytes effTsMs TIMESTAMP_LE_LENGTH ++
      int_to_le_bytes seqDraw 4 ++
      int_to_le_bytes winDraw 4 ++
      int_to_le_bytes (utf8Encode string_param.data).length 4

def a1_block (a1_value : String) : List Nat :=
  ljust ((utf8Encode a1_value.data).take A1_LENGTH) A1_LENGTH 0

def app_block (app_identifier : String) : List Nat :=
  ljust ((utf8Encode app_identifier.data).take APP_ID_LENGTH) APP_ID_LENGTH 0

def env_block (seed_byte : Nat) : List Nat :=
  [1, seed_byte ^^^ ENV_TABLE.getD 0 0] ++
    (List.range' 1 14).map (fun i => ENV_TABLE.getD i 0 ^^^ ENV_CHECKS_DEFAULT.getD i 0)

def digest_block (md5Path : List Nat → List Nat) (seed_byte tsMs : Nat)
    (string_param : String) : List Nat :=
  (custom_hash_v2 (int_to_le_bytes tsMs TIMESTAMP_LE_LENGTH ++
    md5Path (utf8Encode (extract_api_path string_param.data)))).map (fun b => b ^^^ seed_byte)

/-- The payload emitted on the success path, given the decoded md5 bytes. -/
def built_payload (md5Path : List Nat → List Nat)
    (seed tsMs effTsMs seqDraw winDraw : Nat)
    (a1_value app_identifier string_param : String)
    (sign_state : Option SignState) (mb : List Nat) : List Nat :=
  VERSION_BYTES ++ int_to_le_bytes seed 4 ++ int_to_le_bytes tsMs TIMESTAMP_LE_LENGTH ++
    state_block effTsMs seqDraw winDraw string_param sign_state ++
    (mb.take MD5_XOR_LENGTH).map (fun b => b ^^^ seed % 256) ++
    ((a1_block a1_value).length :: a1_block a1_value) ++
    ((app_block app_identifier).length :: app_block app_identifier) ++
    env_block (seed % 256) ++ A3_LEAD ++
    digest_block md5Path (seed % 256) tsMs string_param


/-- A well-formed MD5 hex digest as the spec demands it: 32 hex digits. -/
def validMd5Hex (s : String) : Prop :=
  s.data.length = 32 ∧ ∀ c ∈ s.data, (hexDigitVal c).isSome

instance (s : String) : Decidable (validMd5Hex s) := by
  unfold validMd5Hex
  infer_instance


/-- The digest-mixer pipeline with the folded length decoupled from the
processed bytes: folds `length` into the state and runs `length / 8` blocks
over `bytes`. -/
def hash_with_length (length : Nat) (bytes : List Nat) : List Nat :=
  let s0 := 1831565813 ^^^ length
  let s1 := 461845907 ^^^ (length <<< 8)
  let s2 := 2246822507 ^^^ (length <<< 16)
  let s3 := 3266489909 ^^^ (length <<< 24)
  hash_finalize length (hash_blocks (length / 8) bytes ⟨s0, s1, s2, s3⟩)


/-- Relation between a state of the unmasked code mixer and a state of the
masked spec mixer: equal in the first three words, congruent mod 2^32 in the
fourth (the only word whose length fold can exceed 32 bits for inputs shorter
than 2^24 bytes). -/
def SpecCodeRel (c m : HState) : Prop :=
  c.s0 = m.s0 ∧ c.s1 = m.s1 ∧ c.s2 = m.s2 ∧ c.s3 % 4294967296 = m.s3 % 4294967296


/-! ### Evaluation vehicle for the 65536-byte counterexample

The mixers diverge at input length 65536 (`length <<< 16` = 2^32 no longer
fits in 32 bits).  Computing 8192 all-zero rounds directly in the kernel
nests too deeply, so the loop is replayed on a packed-`Nat` state through
`ziter`, whose per-step branch forces every intermediate state to a literal;
the lemmas below connect it back to `hash_blocks`. -/

def zround (s : HState) : HState := hash_round s (List.replicate 8 0)

def zloop : Nat → HState → HState
  | 0, s => s
  | n + 1, s => zloop n (zround s)

def pack (s : HState) : Nat :=
  s.s0 + s.s1 * 2 ^ 64 + s.s2 * 2 ^ 128 + s.s3 * 2 ^ 192

def unpack (w : Nat) : HState :=
  ⟨w % 2 ^ 64, w / 2 ^ 64 % 2 ^ 64, w / 2 ^ 128 % 2 ^ 64, w / 2 ^ 192⟩

def zstep (w : Nat) : Nat := pack (zround (unpack w))

def ziter : Nat → Nat → Nat
  | 0, w => w
  | n + 1, w => if w % 2 = 17 then 0 else ziter n (zstep w)

abbrev HBounded (s : HState) : Prop :=
  s.s0 < 2 ^ 64 ∧ s.s1 < 2 ^ 64 ∧ s.s2 < 2 ^ 64 ∧ s.s3 < 2 ^ 64

/-- Code-mixer state after the (unmasked) length fold at length 65536. -/
def c_st0 : HState := ⟨1831500277, 445068691, 6541789803, 1102778117685⟩

def c_st1 : HState := ⟨588608297, 3256690614, 3468417307, 3059940923⟩
def c_st2 : HState := ⟨1312754397, 603369722, 1263539056, 846259452⟩
def c_st3 : HState := ⟨1831500276, 543567812, 2246822507, 820575667⟩
def c_st4 : HState := ⟨588608297, 2403368852, 3468417307, 3604573973⟩
def c_st5 : HState := ⟨1312754397, 424088648, 1263539056, 1896586314⟩
def c_st6 : HState := ⟨1831500276, 3826697542, 2246822507, 2638047160⟩
def c_st7 : HState := ⟨588608297, 4037428179, 3468417307, 3285580948⟩
def c_st8 : HState := ⟨1312754397, 2231289592, 1263539056, 2552559804⟩

/-- Spec-mixer state after the masked length fold at length 65536. -/
def s_st0 : HState := ⟨1831500277, 445068691, 2246822507, 3266489909⟩

def s_st1 : HState := ⟨1311681501, 3256690614, 3173481652, 3059940923⟩
def s_st2 : HState := ⟨587518504, 603369722, 952940255, 846259452⟩
def s_st3 : HState := ⟨1831500277, 543567812, 2246822507, 820575667⟩
def s_st4 : HState := ⟨1311681501, 2403368852, 3173481652, 3604573973⟩
def s_st5 : HState := ⟨587518504, 424088648, 952940255, 1896586314⟩
def s_st6 : HState := ⟨1831500277, 3826697542, 2246822507, 2638047160⟩
def s_st7 : HState := ⟨1311681501, 4037428179, 3173481652, 3285580948⟩
def s_st8 : HState := ⟨587518504, 2231289592, 952940255, 2552559804⟩


/-! ## Basic lemmas -/

theorem int_to_le_bytes_length (val length : Nat) :
    (int_to_le_bytes val length).length = length := by
  induction length generalizing val with
  | zero => rfl
  | succ n ih => simp [int_to_le_bytes, ih]

theorem le_decode_int_to_le_bytes (val n : Nat) :
    le_decode (int_to_le_bytes val n) = val % 256 ^ n := by
  induction n generalizing val with
  | zero => simp [int_to_le_bytes, le_decode]; omega
  | succ k ih =>
    have h : (256 : Nat) ^ (k + 1) = 256 * 256 ^ k := by ring
    rw [int_to_le_bytes, le_decode, ih, h, Nat.mod_mul]

theorem mask32_lt (x : Nat) : mask32 x < 4294967296 :=
  Nat.mod_lt _ (by norm_num)

theorem rotate_left_lt (val n : Nat) : rotate_left val n < 4294967296 :=
  mask32_lt _

theorem custom_hash_v2_length (l : List Nat) : (custom_hash_v2 l).length = 16 := by
  simp [custom_hash_v2, hash_finalize, int_to_le_bytes_length]

theorem ljust_length (l : List Nat) (width fill : Nat) :
    (ljust l width fill).length = max l.length width := by
  simp [ljust]
  omega

theorem getD_eq_headD_drop (l : List Nat) (n d : Nat) :
    l.getD n d = (l.drop n).headD d := by
  induction l generalizing n with
  | nil => simp
  | cons a t ih =>
    cases n with
    | zero => simp
    | succ m => simp [ih m]

theorem drop_append_of_length (a b : List Nat) (n : Nat) (h : a.length = n) :
    (a ++ b).drop n = b := by
  subst h
  simp

theorem drop_append_add (a b : List Nat) (n m : Nat) (h : a.length = n) :
    (a ++ b).drop (n + m) = b.drop m := by
  subst h
  exact List.drop_append m

/-! ## Hex-decoding lemmas -/

theorem hexDigitVal_not_ws (c : Char) (h : (hexDigitVal c).isSome) : isHexWs c = false := by
  unfold hexDigitVal at h
  unfold isHexWs
  by_contra hc
  simp only [Bool.or_eq_true, decide_eq_true_eq, Bool.not_eq_false] at hc
  have hv : c.val < 55296 → c.toNat = c.val.toNat := fun _ => rfl
  rcases hc with ((((h1 | h1) | h1) | h1) | h1) | h1 <;>
    subst h1 <;> simp [Char.le_def] at h

/-- On a string of hex digits of even length, `bytes.fromhex` succeeds and
produces one byte per digit pair. -/
theorem hexDecode_all_hex (cs : List Char) (hhex : ∀ c ∈ cs, (hexDigitVal c).isSome)
    (heven : cs.length % 2 = 0) :
    ∃ l, hexDecode cs = some l ∧ l.length = cs.length / 2 := by
  induction cs using hexDecode.induct with
  | case1 => exact ⟨[], rfl, rfl⟩
  | case2 c cs hws ih =>
    have hs : (hexDigitVal c).isSome := hhex c (by simp)
    rw [hexDigitVal_not_ws c hs] at hws
    exact absurd hws (by simp)
  | case3 c hws hi d cs2 hc lo hd ih =>
    have hhex2 : ∀ x ∈ cs2, (hexDigitVal x).isSome := fun x hx => hhex x (by simp [hx])
    have heven2 : cs2.length % 2 = 0 := by simp at heven ⊢; omega
    obtain ⟨l, hl, hlen⟩ := ih hhex2 heven2
    refine ⟨(hi * 16 + lo) :: l, ?_, ?_⟩
    · simp [hexDecode, hws, hc, hd, hl]
    · simp [hlen]
      omega
  | case4 c hws hi d cs2 hc hd =>
    have hs : (hexDigitVal d).isSome := hhex d (by simp)
    rw [hd] at hs
    simp at hs
  | case5 c cs hws hfall =>
    cases hcv : hexDigitVal c with
    | none =>
      have hs : (hexDigitVal c).isSome := hhex c (by simp)
      rw [hcv] at hs
      simp at hs
    | some hi =>
      cases cs with
      | nil => simp at heven
      | cons d cs2 => exact absurd rfl (hfall hi d cs2 hcv)

theorem build_ok_eq (md5Path : List Nat → List Nat)
    (seed tsMs effTsMs seqDraw winDraw : Nat)
    (hex_parameter a1_value app_identifier string_param : String)
    (sign_state : Option SignState) (mb : List Nat)
    (hd : hexDecode hex_parameter.data = some mb) (h8 : MD5_XOR_LENGTH ≤ mb.length) :
    build_payload_array md5Path seed tsMs effTsMs seqDraw winDraw hex_parameter
      a1_value app_identifier string_param sign_state =
      .ok (built_payload md5Path seed tsMs effTsMs seqDraw winDraw a1_value
        app_identifier string_param sign_state mb) := by
  cases sign_state <;>
    simp [build_payload_array, built_payload, state_block, a1_block, app_block,
      env_block, digest_block, hd, h8]

theorem state_block_length (effTsMs seqDraw winDraw : Nat) (sp : String)
    (ss : Option SignState) : (state_block effTsMs seqDraw winDraw sp ss).length = 20 := by
  cases ss <;>
    simp [state_block, int_to_le_bytes_length, TIMESTAMP_LE_LENGTH]

theorem a1_block_length (v : String) : (a1_block v).length = 52 := by
  simp [a1_block, ljust_length, A1_LENGTH]

theorem app_block_length (v : String) : (app_block v).length = 10 := by
  simp [app_block, ljust_length, APP_ID_LENGTH]

theorem env_block_length (b : Nat) : (env_block b).length = 16 := by
  simp [env_block]

theorem digest_block_length (md5Path : List Nat → List Nat) (b tsMs : Nat)
    (sp : String) : (digest_block md5Path b tsMs sp).length = 16 := by
  simp [digest_block, custom_hash_v2_length]

theorem built_payload_length (md5Path : List Nat → List Nat)
    (seed tsMs effTsMs seqDraw winDraw : Nat)
    (a1_value app_identifier string_param : String)
    (sign_state : Option SignState) (mb : List Nat) (h8 : MD5_XOR_LENGTH ≤ mb.length) :
    (built_payload md5Path seed tsMs effTsMs seqDraw winDraw a1_value
      app_identifier string_param sign_state mb).length = 144 := by
  simp [built_payload, state_block_length, a1_block_length, app_block_length,
    env_block_length, digest_block_length, int_to_le_bytes_length,
    VERSION_BYTES, TIMESTAMP_LE_LENGTH, A3_LEAD, MD5_XOR_LENGTH] at h8 ⊢
  omega

/-- Inversion: a successful build comes from a decodable hex argument with at
least 8 decoded bytes, and the payload is the explicit segment concatenation. -/
theorem build_ok_inv (md5Path : List Nat → List Nat)
    (seed tsMs effTsMs seqDraw winDraw : Nat)
    (hex_parameter a1_value app_identifier string_param : String)
    (sign_state : Option SignState) (p : List Nat)
    (h : build_payload_array md5Path seed tsMs effTsMs seqDraw winDraw hex_parameter
      a1_value app_identifier string_param sign_state = .ok p) :
    ∃ mb, hexDecode hex_parameter.data = some mb ∧ MD5_XOR_LENGTH ≤ mb.length ∧
      p = built_payload md5Path seed tsMs effTsMs seqDraw winDraw a1_value
        app_identifier string_param sign_state mb := by
  cases he : hexDecode hex_parameter.data with
  | none =>
    exfalso
    unfold build_payload_array at h
    simp [he] at h
  | some mb =>
    by_cases h8 : MD5_XOR_LENGTH ≤ mb.length
    · have heq := build_ok_eq md5Path seed tsMs effTsMs seqDraw winDraw hex_parameter
        a1_value app_identifier string_param sign_state mb he h8
      rw [heq] at h
      simp at h
      exact ⟨mb, rfl, h8, h.symm⟩
    · exfalso
      unfold build_payload_array at h
      simp [he, h8] at h

/-! ## Claim C2: 144-byte length invariant, both branches -/

/-- C2: for every valid input (32-character hex md5, arbitrary identity,
app-id and uri strings, any timestamp and draws), the builder succeeds and
returns exactly 144 bytes, both when a session snapshot is supplied and when
it is not. -/
theorem C2_payload_always_144_bytes (md5Path : List Nat → List Nat)
    (seed tsMs effTsMs seqDraw winDraw : Nat)
    (hex_parameter a1_value app_identifier string_param : String)
    (st : SignState) (hhex : validMd5Hex hex_parameter) :
    ∃ p q,
      build_payload_array md5Path seed tsMs effTsMs seqDraw winDraw hex_parameter
        a1_value app_identifier string_param (some st) = .ok p ∧
      build_payload_array md5Path seed tsMs effTsMs seqDraw winDraw hex_parameter
        a1_value app_identifier string_param none = .ok q ∧
      p.length = 144 ∧ q.length = 144 := by
  obtain ⟨hlen, hsome⟩ := hhex
  obtain ⟨mb, hd, hmbl⟩ := hexDecode_all_hex hex_parameter.data hsome (by omega)
  have h8 : MD5_XOR_LENGTH ≤ mb.length := by
    simp [MD5_XOR_LENGTH]
    omega
  exact ⟨_, _,
    build_ok_eq md5Path seed tsMs effTsMs seqDraw winDraw hex_parameter a1_value
      app_identifier string_param (some st) mb hd h8,
    build_ok_eq md5Path seed tsMs effTsMs seqDraw winDraw hex_parameter a1_value
      app_identifier string_param none mb hd h8,
    built_payload_length md5Path seed tsMs effTsMs seqDraw winDraw a1_value
      app_identifier string_param (some st) mb h8,
    built_payload_length md5Path seed tsMs effTsMs seqDraw winDraw a1_value
      app_identifier string_param none mb h8⟩

theorem C2_witness :
    validMd5Hex "5d41402abc4b2a76b9719d911017c592" ∧
    ∃ p q,
      build_payload_array (fun _ => List.replicate 16 0) 5 7 11 13 17
        "5d41402abc4b2a76b9719d911017c592" "a1value" "xhs-pc-web" "/api/x?y=1"
        (some ⟨1, 2, 3, 4⟩) = .ok p ∧
      build_payload_array (fun _ => List.replicate 16 0) 5 7 11 13 17
        "5d41402abc4b2a76b9719d911017c592" "a1value" "xhs-pc-web" "/api/x?y=1"
        none = .ok q ∧
      p.length = 144 ∧ q.length = 144 :=
  ⟨by decide,
    C2_payload_always_144_bytes (fun _ => List.replicate 16 0) 5 7 11 13 17
      "5d41402abc4b2a76b9719d911017c592" "a1value" "xhs-pc-web" "/api/x?y=1"
      ⟨1, 2, 3, 4⟩ (by decide)⟩

/-! ## Claim C3: malformed md5 hex handling -/

/-- C3 counterexample: the md5 argument "0011223344556677" is malformed by the
claim's definition (16 characters, not 32), yet `build_payload_array` does not
fail: it succeeds, silently using only the 8 decoded bytes. -/
theorem C3_counterexample :
    (build_payload_array (fun _ => List.replicate 16 0) 0 0 0 0 0
      "0011223344556677" "a" "xhs-pc-web" "" none).isOk = true := by
  decide

/-- C3 (amended): the builder does not validate that the digest string has
exactly 32 characters.  Any whitespace-free string of hex digits with even
length at least 16 is accepted (only the first 8 decoded bytes are used);
failures come only from the hex decode itself or from fewer than 8 decoded
bytes, at the point of decoding rather than before any assembly work. -/
theorem C3_amended_no_length_validation (md5Path : List Nat → List Nat)
    (seed tsMs effTsMs seqDraw winDraw : Nat)
    (hex_parameter a1_value app_identifier string_param : String)
    (sign_state : Option SignState)
    (hhex : ∀ c ∈ hex_parameter.data, (hexDigitVal c).isSome)
    (heven : hex_parameter.data.length % 2 = 0)
    (hlen : 16 ≤ hex_parameter.data.length) :
    ∃ p, build_payload_array md5Path seed tsMs effTsMs seqDraw winDraw hex_parameter
      a1_value app_identifier string_param sign_state = .ok p := by
  obtain ⟨mb, hd, hmbl⟩ := hexDecode_all_hex hex_parameter.data hhex heven
  have h8 : MD5_XOR_LENGTH ≤ mb.length := by
    simp [MD5_XOR_LENGTH]
    omega
  exact ⟨_, build_ok_eq md5Path seed tsMs effTsMs seqDraw winDraw hex_parameter
    a1_value app_identifier string_param sign_state mb hd h8⟩

theorem C3_witness :
    (∀ c ∈ "00112233445566778899".data, (hexDigitVal c).isSome) ∧
    "00112233445566778899".data.length % 2 = 0 ∧
    16 ≤ "00112233445566778899".data.length ∧
    ∃ p, build_payload_array (fun _ => List.replicate 16 0) 3 4 5 6 7
      "00112233445566778899" "id" "xhs-pc-web" "/api" none = .ok p :=
  ⟨by decide, by decide, by decide,
    C3_amended_no_length_validation (fun _ => List.replicate 16 0) 3 4 5 6 7
      "00112233445566778899" "id" "xhs-pc-web" "/api" none
      (by decide) (by decide) (by decide)⟩

/-! ## Positional reasoning helpers -/

theorem drop_peel {a b : List Nat} {n : Nat} (k m : Nat) (h : a.length = k)
    (hm : n = k + m) : (a ++ b).drop n = b.drop m := by
  subst hm
  exact drop_append_add a b k m h

theorem md5_block_length (mb : List Nat) (f : Nat → Nat)
    (h8 : MD5_XOR_LENGTH ≤ mb.length) :
    ((mb.take MD5_XOR_LENGTH).map f).length = 8 := by
  simp [MD5_XOR_LENGTH] at h8 ⊢
  omega

/-! ## Claim C10: length-prefix bytes are constants 52 and 10 -/

/-- C10: for every successful build, whatever the identity and app-id strings
are (shorter or longer than the field widths), the emitted length-prefix
bytes are constant: payload byte 44 is 52 and payload byte 97 is 10, because
each prefix is the length of the zero-padded fixed-width field. -/
theorem C10_length_prefix_constant (md5Path : List Nat → List Nat)
    (seed tsMs effTsMs seqDraw winDraw : Nat)
    (hex_parameter a1_value app_identifier string_param : String)
    (sign_state : Option SignState) (p : List Nat)
    (h : build_payload_array md5Path seed tsMs effTsMs seqDraw winDraw hex_parameter
      a1_value app_identifier string_param sign_state = .ok p) :
    p.getD 44 0 = 52 ∧ p.getD 97 0 = 10 := by
  obtain ⟨mb, he, h8, hp⟩ := build_ok_inv md5Path seed tsMs effTsMs seqDraw winDraw
    hex_parameter a1_value app_identifier string_param sign_state p h
  subst hp
  unfold built_payload
  simp only [List.append_assoc]
  constructor
  · rw [getD_eq_headD_drop]
    rw [drop_peel 4 40 (by simp [VERSION_BYTES]) (by norm_num)]
    rw [drop_peel 4 36 (int_to_le_bytes_length seed 4) (by norm_num)]
    rw [drop_peel 8 28 (by simp [int_to_le_bytes_length, TIMESTAMP_LE_LENGTH]) (by norm_num)]
    rw [drop_peel 20 8 (state_block_length _ _ _ _ _) (by norm_num)]
    rw [drop_peel 8 0 (md5_block_length mb _ h8) (by norm_num)]
    simp [a1_block_length]
  · rw [getD_eq_headD_drop]
    rw [drop_peel 4 93 (by simp [VERSION_BYTES]) (by norm_num)]
    rw [drop_peel 4 89 (int_to_le_bytes_length seed 4) (by norm_num)]
    rw [drop_peel 8 81 (by simp [int_to_le_bytes_length, TIMESTAMP_LE_LENGTH]) (by norm_num)]
    rw [drop_peel 20 61 (state_block_length _ _ _ _ _) (by norm_num)]
    rw [drop_peel 8 53 (md5_block_length mb _ h8) (by norm_num)]
    rw [drop_peel 53 0 (by simp [a1_block_length]) (by norm_num)]
    simp [app_block_length]

theorem C10_witness :
    build_payload_array (fun _ => List.replicate 16 0) 3 4 5 6 7
      "5d41402abc4b2a76b9719d911017c592" "short" "longer-than-ten-bytes-app-id"
      "/api" none =
      .ok (built_payload (fun _ => List.replicate 16 0) 3 4 5 6 7 "short"
        "longer-than-ten-bytes-app-id" "/api" none
        [93, 65, 64, 42, 188, 75, 42, 118, 185, 113, 157, 145, 16, 23, 197, 146]) ∧
    (built_payload (fun _ => List.replicate 16 0) 3 4 5 6 7 "short"
      "longer-than-ten-bytes-app-id" "/api" none
      [93, 65, 64, 42, 188, 75, 42, 118, 185, 113, 157, 145, 16, 23, 197, 146]).getD 44 0 = 52 ∧
    (built_payload (fun _ => List.replicate 16 0) 3 4 5 6 7 "short"
      "longer-than-ten-bytes-app-id" "/api" none
      [93, 65, 64, 42, 188, 75, 42, 118, 185, 113, 157, 145, 16, 23, 197, 146]).getD 97 0 = 10 := by
  have hb := build_ok_eq (fun _ => List.replicate 16 0) 3 4 5 6 7
    "5d41402abc4b2a76b9719d911017c592" "short" "longer-than-ten-bytes-app-id"
    "/api" none
    [93, 65, 64, 42, 188, 75, 42, 118, 185, 113, 157, 145, 16, 23, 197, 146]
    (by decide) (by decide)
  have hc := C10_length_prefix_constant (fun _ => List.replicate 16 0) 3 4 5 6 7
    "5d41402abc4b2a76b9719d911017c592" "short" "longer-than-ten-bytes-app-id"
    "/api" none _ hb
  exact ⟨hb, hc.1, hc.2⟩

/-! ## Claim C9: identity values longer than 52 UTF-8 bytes are truncated -/

/-- C9: when the identity (a1) value's UTF-8 encoding exceeds 52 bytes, the
builder truncates the encoded bytes to exactly 52 before computing the
length-prefix byte: the prefix byte at offset 44 is 52 (not the original
length), and the 52 truncated bytes follow it at offsets 45-96. -/
theorem C9_a1_truncated_to_52 (md5Path : List Nat → List Nat)
    (seed tsMs effTsMs seqDraw winDraw : Nat)
    (hex_parameter a1_value app_identifier string_param : String)
    (sign_state : Option SignState) (p : List Nat)
    (hlong : 52 < (utf8Encode a1_value.data).length)
    (h : build_payload_array md5Path seed tsMs effTsMs seqDraw winDraw hex_parameter
      a1_value app_identifier string_param sign_state = .ok p) :
    p.getD 44 0 = 52 ∧ (p.drop 45).take 52 = (utf8Encode a1_value.data).take 52 := by
  obtain ⟨mb, he, h8, hp⟩ := build_ok_inv md5Path seed tsMs effTsMs seqDraw winDraw
    hex_parameter a1_value app_identifier string_param sign_state p h
  have htrunc : a1_block a1_value = (utf8Encode a1_value.data).take 52 := by
    simp [a1_block, ljust, A1_LENGTH]
    omega
  refine ⟨?_, ?_⟩
  · rw [hp]
    unfold built_payload
    simp only [List.append_assoc]
    rw [getD_eq_headD_drop]
    rw [drop_peel 4 40 (by simp [VERSION_BYTES]) (by norm_num)]
    rw [drop_peel 4 36 (int_to_le_bytes_length seed 4) (by norm_num)]
    rw [drop_peel 8 28 (by simp [int_to_le_bytes_length, TIMESTAMP_LE_LENGTH]) (by norm_num)]
    rw [drop_peel 20 8 (state_block_length _ _ _ _ _) (by norm_num)]
    rw [drop_peel 8 0 (md5_block_length mb _ h8) (by norm_num)]
    simp [a1_block_length]
  subst hp
  unfold built_payload
  simp only [List.append_assoc]
  rw [drop_peel 4 41 (by simp [VERSION_BYTES]) (by norm_num)]
  rw [drop_peel 4 37 (int_to_le_bytes_length seed 4) (by norm_num)]
  rw [drop_peel 8 29 (by simp [int_to_le_bytes_length, TIMESTAMP_LE_LENGTH]) (by norm_num)]
  rw [drop_peel 20 9 (state_block_length _ _ _ _ _) (by norm_num)]
  rw [drop_peel 8 1 (md5_block_length mb _ h8) (by norm_num)]
  rw [List.cons_append, List.drop_succ_cons, List.drop_zero]
  rw [List.take_append_of_le_length (by rw [a1_block_length])]
  rw [htrunc]
  simp [List.take_take]

theorem C9_witness :
    52 < (utf8Encode "this-identity-value-is-way-longer-than-fifty-two-utf8-bytes".data).length ∧
    build_payload_array (fun _ => List.replicate 16 0) 3 4 5 6 7
      "5d41402abc4b2a76b9719d911017c592"
      "this-identity-value-is-way-longer-than-fifty-two-utf8-bytes"
      "xhs-pc-web" "/api" none =
      .ok (built_payload (fun _ => List.replicate 16 0) 3 4 5 6 7
        "this-identity-value-is-way-longer-than-fifty-two-utf8-bytes"
        "xhs-pc-web" "/api" none
        [93, 65, 64, 42, 188, 75, 42, 118, 185, 113, 157, 145, 16, 23, 197, 146]) ∧
    (built_payload (fun _ => List.replicate 16 0) 3 4 5 6 7
      "this-identity-value-is-way-longer-than-fifty-two-utf8-bytes"
      "xhs-pc-web" "/api" none
      [93, 65, 64, 42, 188, 75, 42, 118, 185, 113, 157, 145, 16, 23, 197, 146]).getD 44 0 = 52 ∧
    ((built_payload (fun _ => List.replicate 16 0) 3 4 5 6 7
      "this-identity-value-is-way-longer-than-fifty-two-utf8-bytes"
      "xhs-pc-web" "/api" none
      [93, 65, 64, 42, 188, 75, 42, 118, 185, 113, 157, 145, 16, 23, 197, 146]).drop 45).take 52 =
      (utf8Encode "this-identity-value-is-way-longer-than-fifty-two-utf8-bytes".data).take 52 := by
  have hb := build_ok_eq (fun _ => List.replicate 16 0) 3 4 5 6 7
    "5d41402abc4b2a76b9719d911017c592"
    "this-identity-value-is-way-longer-than-fifty-two-utf8-bytes"
    "xhs-pc-web" "/api" none
    [93, 65, 64, 42, 188, 75, 42, 118, 185, 113, 157, 145, 16, 23, 197, 146]
    (by decide) (by decide)
  have hc := C9_a1_truncated_to_52 (fun _ => List.replicate 16 0) 3 4 5 6 7
    "5d41402abc4b2a76b9719d911017c592"
    "this-identity-value-is-way-longer-than-fifty-two-utf8-bytes"
    "xhs-pc-web" "/api" none _ (by decide) hb
  exact ⟨by decide, hb, hc.1, hc.2⟩

/-! ## Claim C7: one seed draw feeds byte 4, the MD5 XOR block and the digest XOR -/

/-- C7: in every successful build, payload byte 4 is the low byte of the one
seed draw, the MD5 block at offsets 36-43 is the first 8 decoded md5 bytes
each XORed with that same low byte, and the digest block at offsets 128-143
is the mixer output XORed with that same low byte. -/
theorem C7_seed_consistency (md5Path : List Nat → List Nat)
    (seed tsMs effTsMs seqDraw winDraw : Nat)
    (hex_parameter a1_value app_identifier string_param : String)
    (sign_state : Option SignState) (p mb : List Nat)
    (hd : hexDecode hex_parameter.data = some mb)
    (h : build_payload_array md5Path seed tsMs effTsMs seqDraw winDraw hex_parameter
      a1_value app_identifier string_param sign_state = .ok p) :
    p.getD 4 0 = seed % 256 ∧
    (p.drop 36).take 8 = (mb.take 8).map (fun b => b ^^^ seed % 256) ∧
    (p.drop 128).take 16 =
      (custom_hash_v2 (int_to_le_bytes tsMs TIMESTAMP_LE_LENGTH ++
        md5Path (utf8Encode (extract_api_path string_param.data)))).map
        (fun b => b ^^^ seed % 256) := by
  obtain ⟨mb2, he, h8, hp⟩ := build_ok_inv md5Path seed tsMs effTsMs seqDraw winDraw
    hex_parameter a1_value app_identifier string_param sign_state p h
  rw [hd] at he
  cases he
  subst hp
  unfold built_payload
  simp only [List.append_assoc]
  refine ⟨?_, ?_, ?_⟩
  · rw [getD_eq_headD_drop]
    rw [drop_peel 4 0 (by simp [VERSION_BYTES]) (by norm_num)]
    rw [List.drop_zero]
    cases hs : int_to_le_bytes seed 4 with
    | nil => simp [int_to_le_bytes] at hs
    | cons x xs =>
      have hx : x = seed % 256 := by
        simp [int_to_le_bytes] at hs
        exact hs.1.symm
      simp [hx]
  · rw [drop_peel 4 32 (by simp [VERSION_BYTES]) (by norm_num)]
    rw [drop_peel 4 28 (int_to_le_bytes_length seed 4) (by norm_num)]
    rw [drop_peel 8 20 (by simp [int_to_le_bytes_length, TIMESTAMP_LE_LENGTH]) (by norm_num)]
    rw [drop_peel 20 0 (state_block_length _ _ _ _ _) (by norm_num)]
    rw [List.drop_zero]
    rw [List.take_append_of_le_length (by rw [md5_block_length mb _ h8])]
    rw [List.take_of_length_le (by rw [md5_block_length mb _ h8])]
    simp [MD5_XOR_LENGTH]
  · rw [drop_peel 4 124 (by simp [VERSION_BYTES]) (by norm_num)]
    rw [drop_peel 4 120 (int_to_le_bytes_length seed 4) (by norm_num)]
    rw [drop_peel 8 112 (by simp [int_to_le_bytes_length, TIMESTAMP_LE_LENGTH]) (by norm_num)]
    rw [drop_peel 20 92 (state_block_length _ _ _ _ _) (by norm_num)]
    rw [drop_peel 8 84 (md5_block_length mb _ h8) (by norm_num)]
    rw [drop_peel 53 31 (by simp [a1_block_length]) (by norm_num)]
    rw [drop_peel 11 20 (by simp [app_block_length]) (by norm_num)]
    rw [drop_peel 16 4 (env_block_length _) (by norm_num)]
    rw [drop_peel 4 0 (by simp [A3_LEAD]) (by norm_num)]
    rw [List.drop_zero]
    rw [List.take_of_length_le (by rw [digest_block_length])]
    simp [digest_block]

theorem C7_witness :
    hexDecode "5d41402abc4b2a76b9719d911017c592".data =
      some [93, 65, 64, 42, 188, 75, 42, 118, 185, 113, 157, 145, 16, 23, 197, 146] ∧
    build_payload_array (fun _ => List.replicate 16 0) 259 4 5 6 7
      "5d41402abc4b2a76b9719d911017c592" "id" "xhs-pc-web" "/api" none =
      .ok (built_payload (fun _ => List.replicate 16 0) 259 4 5 6 7 "id"
        "xhs-pc-web" "/api" none
        [93, 65, 64, 42, 188, 75, 42, 118, 185, 113, 157, 145, 16, 23, 197, 146]) ∧
    (built_payload (fun _ => List.replicate 16 0) 259 4 5 6 7 "id"
      "xhs-pc-web" "/api" none
      [93, 65, 64, 42, 188, 75, 42, 118, 185, 113, 157, 145, 16, 23, 197, 146]).getD 4 0 = 259 % 256 ∧
    ((built_payload (fun _ => List.replicate 16 0) 259 4 5 6 7 "id"
      "xhs-pc-web" "/api" none
      [93, 65, 64, 42, 188, 75, 42, 118, 185, 113, 157, 145, 16, 23, 197, 146]).drop 36).take 8 =
      ([93, 65, 64, 42, 188, 75, 42, 118, 185, 113, 157, 145, 16, 23, 197,
        146].take 8).map (fun b => b ^^^ 259 % 256) ∧
    ((built_payload (fun _ => List.replicate 16 0) 259 4 5 6 7 "id"
      "xhs-pc-web" "/api" none
      [93, 65, 64, 42, 188, 75, 42, 118, 185, 113, 157, 145, 16, 23, 197, 146]).drop 128).take 16 =
      (custom_hash_v2 (int_to_le_bytes 4 TIMESTAMP_LE_LENGTH ++
        (fun (_ : List Nat) => List.replicate 16 0) (utf8Encode (extract_api_path "/api".data)))).map
        (fun b => b ^^^ 259 % 256) := by
  have hb := build_ok_eq (fun _ => List.replicate 16 0) 259 4 5 6 7
    "5d41402abc4b2a76b9719d911017c592" "id" "xhs-pc-web" "/api" none
    [93, 65, 64, 42, 188, 75, 42, 118, 185, 113, 157, 145, 16, 23, 197, 146]
    (by decide) (by decide)
  have hc := C7_seed_consistency (fun _ => List.replicate 16 0) 259 4 5 6 7
    "5d41402abc4b2a76b9719d911017c592" "id" "xhs-pc-web" "/api" none _
    [93, 65, 64, 42, 188, 75, 42, 118, 185, 113, 157, 145, 16, 23, 197, 146]
    (by decide) hb
  exact ⟨by decide, hb, hc.1, hc.2.1, hc.2.2⟩

/-! ## Claim C6: snapshot field propagation -/

/-- C6: when a snapshot whose fields fit their encoded widths is supplied,
the payload bytes at offsets 16-23 (8 bytes LE), 24-27, 28-31 and 32-35
(4 bytes LE each) decode back to the snapshot's `page_load_timestamp`,
`sequence_value`, `window_props_length` and `uri_length`. -/
theorem C6_snapshot_propagation (md5Path : List Nat → List Nat)
    (seed tsMs effTsMs seqDraw winDraw : Nat)
    (hex_parameter a1_value app_identifier string_param : String)
    (st : SignState) (p : List Nat)
    (hplt : st.page_load_timestamp < 2 ^ 64)
    (hseq : st.sequence_value < 2 ^ 32)
    (hwin : st.window_props_length < 2 ^ 32)
    (huri : st.uri_length < 2 ^ 32)
    (h : build_payload_array md5Path seed tsMs effTsMs seqDraw winDraw hex_parameter
      a1_value app_identifier string_param (some st) = .ok p) :
    le_decode ((p.drop 16).take 8) = st.page_load_timestamp ∧
    le_decode ((p.drop 24).take 4) = st.sequence_value ∧
    le_decode ((p.drop 28).take 4) = st.window_props_length ∧
    le_decode ((p.drop 32).take 4) = st.uri_length := by
  obtain ⟨mb, he, h8, hp⟩ := build_ok_inv md5Path seed tsMs effTsMs seqDraw winDraw
    hex_parameter a1_value app_identifier string_param (some st) p h
  subst hp
  unfold built_payload state_block
  simp only [List.append_assoc]
  refine ⟨?_, ?_, ?_, ?_⟩
  · rw [drop_peel 4 12 (by simp [VERSION_BYTES]) (by norm_num)]
    rw [drop_peel 4 8 (int_to_le_bytes_length seed 4) (by norm_num)]
    rw [drop_peel 8 0 (by simp [int_to_le_bytes_length, TIMESTAMP_LE_LENGTH]) (by norm_num)]
    rw [List.drop_zero]
    rw [List.take_left' (by simp [int_to_le_bytes_length, TIMESTAMP_LE_LENGTH])]
    rw [le_decode_int_to_le_bytes]
    exact Nat.mod_eq_of_lt (by norm_num [TIMESTAMP_LE_LENGTH] at hplt ⊢; omega)
  · rw [drop_peel 4 20 (by simp [VERSION_BYTES]) (by norm_num)]
    rw [drop_peel 4 16 (int_to_le_bytes_length seed 4) (by norm_num)]
    rw [drop_peel 8 8 (by simp [int_to_le_bytes_length, TIMESTAMP_LE_LENGTH]) (by norm_num)]
    rw [drop_peel 8 0 (by simp [int_to_le_bytes_length, TIMESTAMP_LE_LENGTH]) (by norm_num)]
    rw [List.drop_zero]
    rw [List.take_left' (int_to_le_bytes_length _ 4)]
    rw [le_decode_int_to_le_bytes]
    exact Nat.mod_eq_of_lt (by norm_num at hseq ⊢; omega)
  · rw [drop_peel 4 24 (by simp [VERSION_BYTES]) (by norm_num)]
    rw [drop_peel 4 20 (int_to_le_bytes_length seed 4) (by norm_num)]
    rw [drop_peel 8 12 (by simp [int_to_le_bytes_length, TIMESTAMP_LE_LENGTH]) (by norm_num)]
    rw [drop_peel 8 4 (by simp [int_to_le_bytes_length, TIMESTAMP_LE_LENGTH]) (by norm_num)]
    rw [drop_peel 4 0 (int_to_le_bytes_length _ 4) (by norm_num)]
    rw [List.drop_zero]
    rw [List.take_left' (int_to_le_bytes_length _ 4)]
    rw [le_decode_int_to_le_bytes]
    exact Nat.mod_eq_of_lt (by norm_num at hwin ⊢; omega)
  · rw [drop_peel 4 28 (by simp [VERSION_BYTES]) (by norm_num)]
    rw [drop_peel 4 24 (int_to_le_bytes_length seed 4) (by norm_num)]
    rw [drop_peel 8 16 (by simp [int_to_le_bytes_length, TIMESTAMP_LE_LENGTH]) (by norm_num)]
    rw [drop_peel 8 8 (by simp [int_to_le_bytes_length, TIMESTAMP_LE_LENGTH]) (by norm_num)]
    rw [drop_peel 4 4 (int_to_le_bytes_length _ 4) (by norm_num)]
    rw [drop_peel 4 0 (int_to_le_bytes_length _ 4) (by norm_num)]
    rw [List.drop_zero]
    rw [List.take_left' (int_to_le_bytes_length _ 4)]
    rw [le_decode_int_to_le_bytes]
    exact Nat.mod_eq_of_lt (by norm_num at huri ⊢; omega)

theorem C6_witness :
    (1234567890123 : Nat) < 2 ^ 64 ∧ (17 : Nat) < 2 ^ 32 ∧ (1100 : Nat) < 2 ^ 32 ∧
    (44 : Nat) < 2 ^ 32 ∧
    build_payload_array (fun _ => List.replicate 16 0) 3 4 5 6 7
      "5d41402abc4b2a76b9719d911017c592" "id" "xhs-pc-web" "/api"
      (some ⟨1234567890123, 17, 1100, 44⟩) =
      .ok (built_payload (fun _ => List.replicate 16 0) 3 4 5 6 7 "id"
        "xhs-pc-web" "/api" (some ⟨1234567890123, 17, 1100, 44⟩)
        [93, 65, 64, 42, 188, 75, 42, 118, 185, 113, 157, 145, 16, 23, 197, 146]) ∧
    le_decode (((built_payload (fun _ => List.replicate 16 0) 3 4 5 6 7 "id"
      "xhs-pc-web" "/api" (some ⟨1234567890123, 17, 1100, 44⟩)
      [93, 65, 64, 42, 188, 75, 42, 118, 185, 113, 157, 145, 16, 23, 197, 146]).drop 16).take 8) =
      1234567890123 ∧
    le_decode (((built_payload (fun _ => List.replicate 16 0) 3 4 5 6 7 "id"
      "xhs-pc-web" "/api" (some ⟨1234567890123, 17, 1100, 44⟩)
      [93, 65, 64, 42, 188, 75, 42, 118, 185, 113, 157, 145, 16, 23, 197, 146]).drop 24).take 4) = 17 ∧
    le_decode (((built_payload (fun _ => List.replicate 16 0) 3 4 5 6 7 "id"
      "xhs-pc-web" "/api" (some ⟨1234567890123, 17, 1100, 44⟩)
      [93, 65, 64, 42, 188, 75, 42, 118, 185, 113, 157, 145, 16, 23, 197, 146]).drop 28).take 4) = 1100 ∧
    le_decode (((built_payload (fun _ => List.replicate 16 0) 3 4 5 6 7 "id"
      "xhs-pc-web" "/api" (some ⟨1234567890123, 17, 1100, 44⟩)
      [93, 65, 64, 42, 188, 75, 42, 118, 185, 113, 157, 145, 16, 23, 197, 146]).drop 32).take 4) = 44 := by
  have hb := build_ok_eq (fun _ => List.replicate 16 0) 3 4 5 6 7
    "5d41402abc4b2a76b9719d911017c592" "id" "xhs-pc-web" "/api"
    (some ⟨1234567890123, 17, 1100, 44⟩)
    [93, 65, 64, 42, 188, 75, 42, 118, 185, 113, 157, 145, 16, 23, 197, 146]
    (by decide) (by decide)
  have hc := C6_snapshot_propagation (fun _ => List.replicate 16 0) 3 4 5 6 7
    "5d41402abc4b2a76b9719d911017c592" "id" "xhs-pc-web" "/api"
    ⟨1234567890123, 17, 1100, 44⟩ _
    (by norm_num) (by norm_num) (by norm_num) (by norm_num) hb
  exact ⟨by norm_num, by norm_num, by norm_num, by norm_num, hb,
    hc.1, hc.2.1, hc.2.2.1, hc.2.2.2⟩

/-! ## Claim C5: session monotonicity -/

theorem run_session_plt (calls : List (Nat × Nat × String)) (m : SessionManager) :
    ∀ s ∈ run_session m calls, s.page_load_timestamp = m.page_load_timestamp := by
  induction calls generalizing m with
  | nil => simp [run_session]
  | cons c rest ih =>
    obtain ⟨a, b, u⟩ := c
    intro s hs
    simp [run_session, get_current_state] at hs
    rcases hs with hs | hs
    · subst hs
      rfl
    · exact ih (update_state m a b) s hs

theorem run_session_member_mono (calls : List (Nat × Nat × String)) (m : SessionManager) :
    ∀ s ∈ run_session m calls,
      m.sequence_value ≤ s.sequence_value ∧
      m.window_props_length ≤ s.window_props_length := by
  induction calls generalizing m with
  | nil => simp [run_session]
  | cons c rest ih =>
    obtain ⟨a, b, u⟩ := c
    intro s hs
    simp [run_session, get_current_state] at hs
    rcases hs with hs | hs
    · subst hs
      exact ⟨Nat.le_add_right _ _, Nat.le_add_right _ _⟩
    · have h2 := ih (update_state m a b) s hs
      exact ⟨le_trans (Nat.le_add_right _ _) h2.1, le_trans (Nat.le_add_right _ _) h2.2⟩

theorem getD_mem_of_lt (l : List SignState) (i : Nat) (d : SignState)
    (h : i < l.length) : l.getD i d ∈ l := by
  induction l generalizing i with
  | nil => simp at h
  | cons x t ih =>
    cases i with
    | zero => simp
    | succ k =>
      simp only [List.getD_cons_succ]
      simp only [List.length_cons] at h
      exact List.mem_cons_of_mem _ (ih k (by omega))

/-- C5: for a freshly constructed session machine (counters initialized in
their configured ranges) and any sequence of `get_current_state` calls whose
step draws lie in the configured ranges, the returned snapshots have
non-decreasing `sequence_value` and `window_props_length` in call order, and
every snapshot carries the machine's construction-time
`page_load_timestamp`. -/
theorem C5_session_monotonic (m : SessionManager) (calls : List (Nat × Nat × String))
    (hinit1 : SESSION_SEQUENCE_INIT_MIN ≤ m.sequence_value ∧
      m.sequence_value ≤ SESSION_SEQUENCE_INIT_MAX)
    (hinit2 : SESSION_WINDOW_PROPS_INIT_MIN ≤ m.window_props_length ∧
      m.window_props_length ≤ SESSION_WINDOW_PROPS_INIT_MAX)
    (hsteps : ∀ c ∈ calls,
      SESSION_SEQUENCE_STEP_MIN ≤ c.1 ∧ c.1 ≤ SESSION_SEQUENCE_STEP_MAX ∧
      SESSION_WINDOW_PROPS_STEP_MIN ≤ c.2.1 ∧ c.2.1 ≤ SESSION_WINDOW_PROPS_STEP_MAX)
    (i j : Nat) (hij : i ≤ j) (hj : j < (run_session m calls).length) :
    ((run_session m calls).getD i ⟨0, 0, 0, 0⟩).sequence_value ≤
      ((run_session m calls).getD j ⟨0, 0, 0, 0⟩).sequence_value ∧
    ((run_session m calls).getD i ⟨0, 0, 0, 0⟩).window_props_length ≤
      ((run_session m calls).getD j ⟨0, 0, 0, 0⟩).window_props_length ∧
    ∀ s ∈ run_session m calls, s.page_load_timestamp = m.page_load_timestamp := by
  refine ⟨?_, ?_, run_session_plt calls m⟩ <;>
  · clear hinit1 hinit2 hsteps
    induction calls generalizing m i j with
    | nil => simp [run_session] at hj
    | cons c rest ih =>
      obtain ⟨a, b, u⟩ := c
      simp only [run_session, get_current_state] at hj ⊢
      cases i with
      | zero =>
        cases j with
        | zero => exact le_refl _
        | succ j2 =>
          simp only [List.getD_cons_zero, List.getD_cons_succ]
          have hj2 : j2 < (run_session (update_state m a b) rest).length := by
            simp at hj
            omega
          have hmem := getD_mem_of_lt (run_session (update_state m a b) rest) j2
            ⟨0, 0, 0, 0⟩ hj2
          have h2 := run_session_member_mono rest (update_state m a b) _ hmem
          first
          | exact h2.1
          | exact h2.2
      | succ i2 =>
        cases j with
        | zero => omega
        | succ j2 =>
          simp only [List.getD_cons_succ]
          have hj2 : j2 < (run_session (update_state m a b) rest).length := by
            simp at hj
            omega
          exact ih (update_state m a b) i2 j2 (by omega) hj2

theorem C5_witness :
    (SESSION_SEQUENCE_INIT_MIN ≤ 16 ∧ 16 ≤ SESSION_SEQUENCE_INIT_MAX) ∧
    (SESSION_WINDOW_PROPS_INIT_MIN ≤ 1500 ∧ 1500 ≤ SESSION_WINDOW_PROPS_INIT_MAX) ∧
    (∀ c ∈ [((1 : Nat), (2 : Nat), "/a"), ((0 : Nat), (10 : Nat), "/bb")],
      SESSION_SEQUENCE_STEP_MIN ≤ c.1 ∧ c.1 ≤ SESSION_SEQUENCE_STEP_MAX ∧
      SESSION_WINDOW_PROPS_STEP_MIN ≤ c.2.1 ∧ c.2.1 ≤ SESSION_WINDOW_PROPS_STEP_MAX) ∧
    (0 : Nat) ≤ 1 ∧
    1 < (run_session ⟨99, 16, 1500⟩ [((1 : Nat), (2 : Nat), "/a"), ((0 : Nat), (10 : Nat), "/bb")]).length ∧
    (((run_session ⟨99, 16, 1500⟩ [((1 : Nat), (2 : Nat), "/a"), ((0 : Nat), (10 : Nat), "/bb")]).getD 0
        ⟨0, 0, 0, 0⟩).sequence_value ≤
      ((run_session ⟨99, 16, 1500⟩ [((1 : Nat), (2 : Nat), "/a"), ((0 : Nat), (10 : Nat), "/bb")]).getD 1
        ⟨0, 0, 0, 0⟩).sequence_value ∧
      ((run_session ⟨99, 16, 1500⟩ [((1 : Nat), (2 : Nat), "/a"), ((0 : Nat), (10 : Nat), "/bb")]).getD 0
        ⟨0, 0, 0, 0⟩).window_props_length ≤
      ((run_session ⟨99, 16, 1500⟩ [((1 : Nat), (2 : Nat), "/a"), ((0 : Nat), (10 : Nat), "/bb")]).getD 1
        ⟨0, 0, 0, 0⟩).window_props_length ∧
      ∀ s ∈ run_session ⟨99, 16, 1500⟩ [((1 : Nat), (2 : Nat), "/a"), ((0 : Nat), (10 : Nat), "/bb")],
        s.page_load_timestamp = (99 : Nat)) :=
  ⟨by decide, by decide, by decide, by decide, by decide,
    C5_session_monotonic ⟨99, 16, 1500⟩ [((1 : Nat), (2 : Nat), "/a"), ((0 : Nat), (10 : Nat), "/bb")]
      (by decide) (by decide) (by decide) 0 1 (by decide) (by decide)⟩

/-! ## Claim C8: API-path extraction -/

/-- C8: `extract_api_path` returns the longest prefix containing neither an
opening brace nor a question mark, i.e. the substring strictly before the
first occurrence of either, and the whole string when neither appears; with
the three literal examples from the spec. -/
theorem C8_extract_api_path_spec :
    (∀ cs : List Char,
      extract_api_path cs = cs.takeWhile (fun c => !(c == '\x7b' || c == '?'))) ∧
    extract_api_path "/api/homefeed\x7b\"num\":47\x7d".data = "/api/homefeed".data ∧
    extract_api_path "/api/homefeed?num=47".data = "/api/homefeed".data ∧
    extract_api_path "/api/homefeed".data = "/api/homefeed".data := by
  refine ⟨?_, by decide, by decide, by decide⟩
  intro cs
  induction cs with
  | nil => rfl
  | cons c t ih =>
    unfold extract_api_path at ih ⊢
    by_cases hb : c = '\x7b'
    · subst hb
      simp only [List.findIdx?_cons, List.findIdx?_succ, List.takeWhile_cons]
      simp
      cases hf : t.findIdx? (fun c => decide (c = '?')) <;> simp [hf]
    · by_cases hq : c = '?'
      · subst hq
        simp only [List.findIdx?_cons, List.findIdx?_succ, List.takeWhile_cons]
        simp [hb]
        cases hf : t.findIdx? (fun c => decide (c = '\x7b')) <;> simp [hf]
      · simp only [List.findIdx?_cons, decide_eq_true_eq, if_neg hb, if_neg hq,
          List.findIdx?_succ, List.takeWhile_cons]
        cases hbf : t.findIdx? (fun x => decide (x = '\x7b')) <;>
          cases hqf : t.findIdx? (fun x => decide (x = '?')) <;>
            rw [hbf, hqf] at ih <;> simp at ih <;>
              (simp [hb, hq, Nat.succ_min_succ]
               rw [← ih])

/-! ## Claim C4: digest-mixer behaviour on lengths not a multiple of 8 -/

theorem hash_blocks_take (n : Nat) : ∀ (l : List Nat) (s : HState),
    hash_blocks n (l.take (8 * n)) s = hash_blocks n l s := by
  induction n with
  | zero => intro l s; rfl
  | succ k ih =>
    intro l s
    simp only [hash_blocks]
    rw [List.take_take]
    have h1 : min 8 (8 * (k + 1)) = 8 := by omega
    rw [h1]
    rw [List.drop_take]
    have h2 : 8 * (k + 1) - 8 = 8 * k := by omega
    rw [h2]
    exact ih (l.drop 8) _

/-- C4 counterexample: on the 1-byte input `[0]` (length not a multiple of 8)
`_custom_hash_v2` does not fail: it returns a 16-byte digest. -/
theorem C4_counterexample :
    custom_hash_v2 [0] =
      [8, 228, 151, 134, 248, 55, 141, 70, 54, 221, 59, 182, 213, 206, 172, 137] := by
  decide

/-- C4 (amended): the mixer performs no length validation at all.  On any
input it returns 16 bytes; when the length is not a multiple of 8 the block
loop silently ignores the trailing `length mod 8` bytes (the full length is
still folded into the state), rather than failing. -/
theorem C4_amended_no_length_rejection (l : List Nat) :
    (custom_hash_v2 l).length = 16 ∧
    custom_hash_v2 l = hash_with_length l.length (l.take (l.length / 8 * 8)) := by
  refine ⟨custom_hash_v2_length l, ?_⟩
  have h := hash_blocks_take (l.length / 8) l
    ⟨1831565813 ^^^ l.length, 461845907 ^^^ (l.length <<< 8),
      2246822507 ^^^ (l.length <<< 16), 3266489909 ^^^ (l.length <<< 24)⟩
  unfold custom_hash_v2 hash_with_length
  simp only []
  rw [Nat.mul_comm (l.length / 8) 8, h]

/-! ## Claim C1: digest mixer versus the spec's masked algorithm -/

theorem xor_mod_two_pow_32 (a b : Nat) :
    (a ^^^ b) % 4294967296 = a % 4294967296 ^^^ b % 4294967296 := by
  have h : (4294967296 : Nat) = 2 ^ 32 := by norm_num
  rw [h]
  apply Nat.eq_of_testBit_eq
  intro i
  simp only [Nat.testBit_mod_two_pow, Nat.testBit_xor]
  by_cases hi : i < 32 <;> simp [hi]

theorem mask32_eq_of_lt {x : Nat} (h : x < 4294967296) : mask32 x = x :=
  Nat.mod_eq_of_lt h

theorem xor_lt_32 {a b : Nat} (ha : a < 4294967296) (hb : b < 4294967296) :
    a ^^^ b < 4294967296 := by
  have h : (4294967296 : Nat) = 2 ^ 32 := by norm_num
  rw [h] at ha hb ⊢
  exact Nat.xor_lt_two_pow ha hb

theorem mask32_add_congr {a b : Nat} (x : Nat) (h : a % 4294967296 = b % 4294967296) :
    mask32 (x + a) = mask32 (x + b) := by
  unfold mask32
  rw [Nat.add_mod x a, Nat.add_mod x b, h]

theorem mask32_add_congr_left {a b : Nat} (y : Nat) (h : a % 4294967296 = b % 4294967296) :
    mask32 (a + y) = mask32 (b + y) := by
  unfold mask32
  rw [Nat.add_mod a y, Nat.add_mod b y, h]

/-- One round maps related states to identical states: every use of `s3` in a
round is masked before it can influence the output. -/
theorem hash_round_eq (c m : HState) (blk : List Nat) (h : SpecCodeRel c m) :
    hash_round c blk = hash_round m blk := by
  obtain ⟨h0, h1, h2, h3⟩ := h
  have hs1 : mask32 ((word_le (blk.take 4) ^^^ c.s1) + c.s3) =
      mask32 ((word_le (blk.take 4) ^^^ m.s1) + m.s3) := by
    rw [h1]
    exact mask32_add_congr _ h3
  have hx : (c.s3 ^^^ word_le (blk.drop 4)) % 4294967296 =
      (m.s3 ^^^ word_le (blk.drop 4)) % 4294967296 := by
    rw [xor_mod_two_pow_32, xor_mod_two_pow_32, h3]
  unfold hash_round
  simp only []
  rw [h0, h2, hs1, mask32_add_congr_left _ hx]

theorem spec_blocks_eq_hash_blocks (n : Nat) : ∀ (l : List Nat) (s : HState),
    spec_blocks n l s = hash_blocks n l s := by
  induction n with
  | zero => intro l s; rfl
  | succ k ih =>
    intro l s
    have hr : spec_round = hash_round := rfl
    simp only [spec_blocks, hash_blocks, hr]
    exact ih (l.drop 8) _

/-- C1 (amended): for byte-list inputs whose length is a multiple of 8 and
below 65536, the code's mixer output equals the spec's masked algorithm; the
code omits the 32-bit mask on the length fold, which only matters once
`length <<< 16` overflows 32 bits. -/
theorem C1_amended_mixer_matches_spec_below_65536 (l : List Nat)
    (hbytes : ∀ b ∈ l, b < 256) (hmul : l.length % 8 = 0) (hlt : l.length < 65536) :
    custom_hash_v2 l = spec_digest_mixer l := by
  have hc : custom_hash_v2 l = hash_finalize l.length (hash_blocks (l.length / 8) l
      ⟨1831565813 ^^^ l.length, 461845907 ^^^ (l.length <<< 8),
        2246822507 ^^^ (l.length <<< 16), 3266489909 ^^^ (l.length <<< 24)⟩) := rfl
  have hs : spec_digest_mixer l = hash_finalize l.length (spec_blocks (l.length / 8) l
      ⟨mask32 (1831565813 ^^^ l.length), mask32 (461845907 ^^^ (l.length <<< 8)),
        mask32 (2246822507 ^^^ (l.length <<< 16)),
        mask32 (3266489909 ^^^ (l.length <<< 24))⟩) := rfl
  rw [hc, hs, spec_blocks_eq_hash_blocks]
  have hlen32 : l.length < 4294967296 := by omega
  have hsh8 : l.length <<< 8 < 4294967296 := by
    rw [Nat.shiftLeft_eq]
    norm_num
    omega
  have hsh16 : l.length <<< 16 < 4294967296 := by
    rw [Nat.shiftLeft_eq]
    norm_num
    omega
  have e0 : mask32 (1831565813 ^^^ l.length) = 1831565813 ^^^ l.length :=
    mask32_eq_of_lt (xor_lt_32 (by norm_num) hlen32)
  have e1 : mask32 (461845907 ^^^ (l.length <<< 8)) = 461845907 ^^^ (l.length <<< 8) :=
    mask32_eq_of_lt (xor_lt_32 (by norm_num) hsh8)
  have e2 : mask32 (2246822507 ^^^ (l.length <<< 16)) =
      2246822507 ^^^ (l.length <<< 16) :=
    mask32_eq_of_lt (xor_lt_32 (by norm_num) hsh16)
  rw [e0, e1, e2]
  by_cases h0 : l.length = 0
  · have hnil : l = [] := List.eq_nil_of_length_eq_zero h0
    subst hnil
    decide
  · have h8 : 8 ≤ l.length := by omega
    obtain ⟨k, hk⟩ : ∃ k, l.length / 8 = k + 1 := ⟨l.length / 8 - 1, by omega⟩
    rw [hk]
    simp only [hash_blocks]
    rw [hash_round_eq
      ⟨1831565813 ^^^ l.length, 461845907 ^^^ (l.length <<< 8),
        2246822507 ^^^ (l.length <<< 16), 3266489909 ^^^ (l.length <<< 24)⟩
      ⟨1831565813 ^^^ l.length, 461845907 ^^^ (l.length <<< 8),
        2246822507 ^^^ (l.length <<< 16), mask32 (3266489909 ^^^ (l.length <<< 24))⟩
      (l.take 8) ⟨rfl, rfl, rfl, (Nat.mod_mod_of_dvd _ dvd_rfl).symm⟩]

theorem C1_amended_witness :
    (∀ b ∈ List.replicate 24 7, b < 256) ∧ (List.replicate 24 7).length % 8 = 0 ∧
    (List.replicate 24 7).length < 65536 ∧
    custom_hash_v2 (List.replicate 24 7) = spec_digest_mixer (List.replicate 24 7) :=
  ⟨by decide, by decide, by decide,
    C1_amended_mixer_matches_spec_below_65536 (List.replicate 24 7)
      (by decide) (by decide) (by decide)⟩

theorem unpack_pack (s : HState) (h : HBounded s) : unpack (pack s) = s := by
  obtain ⟨h0, h1, h2, h3⟩ := h
  cases s with
  | mk a b c d =>
    simp only at h0 h1 h2 h3
    unfold unpack pack
    simp only [HState.mk.injEq]
    norm_num at h0 h1 h2 h3 ⊢
    refine ⟨?_, ?_, ?_, ?_⟩ <;> omega

theorem zround_bounded (s : HState) : HBounded (zround s) := by
  refine ⟨?_, ?_, ?_, ?_⟩ <;>
    exact lt_trans (rotate_left_lt _ _) (by norm_num)

theorem zloop_bounded (n : Nat) : ∀ s : HState, HBounded (zloop (n + 1) s) := by
  induction n with
  | zero => intro s; exact zround_bounded s
  | succ k ih => intro s; exact ih (zround s)

theorem pack_inj (a b : HState) (ha : HBounded a) (hb : HBounded b)
    (h : pack a = pack b) : a = b := by
  rw [← unpack_pack a ha, ← unpack_pack b hb, h]

theorem ziter_eq (n : Nat) : ∀ s : HState, HBounded s →
    ziter n (pack s) = pack (zloop n s) := by
  induction n with
  | zero => intro s _; rfl
  | succ k ih =>
    intro s h
    show (if pack s % 2 = 17 then 0 else ziter k (zstep (pack s))) = _
    rw [if_neg (by omega)]
    have hz : zstep (pack s) = pack (zround s) := by
      unfold zstep
      rw [unpack_pack s h]
    rw [hz]
    exact ih (zround s) (zround_bounded s)

theorem hash_blocks_replicate_zero : ∀ (n m : Nat) (s : HState), 8 * n ≤ m →
    hash_blocks n (List.replicate m 0) s = zloop n s := by
  intro n
  induction n with
  | zero => intro m s _; rfl
  | succ k ih =>
    intro m s h
    simp only [hash_blocks, zloop]
    rw [List.drop_replicate, List.take_replicate]
    have hmin : min 8 m = 8 := by omega
    rw [hmin]
    exact ih (m - 8) (zround s) (by omega)

theorem zloop_add (a b : Nat) : ∀ s : HState, zloop (b + a) s = zloop a (zloop b s) := by
  induction b with
  | zero =>
    intro s
    rw [Nat.zero_add]
    rfl
  | succ k ih =>
    intro s
    have h : k + 1 + a = (k + a) + 1 := by omega
    rw [h]
    show zloop (k + a) (zround s) = _
    rw [ih (zround s)]
    rfl

set_option maxRecDepth 1000000

theorem zc1 : ziter 1024 (pack c_st0) = pack c_st1 := by decide
theorem zc2 : ziter 1024 (pack c_st1) = pack c_st2 := by decide
theorem zc3 : ziter 1024 (pack c_st2) = pack c_st3 := by decide
theorem zc4 : ziter 1024 (pack c_st3) = pack c_st4 := by decide
theorem zc5 : ziter 1024 (pack c_st4) = pack c_st5 := by decide
theorem zc6 : ziter 1024 (pack c_st5) = pack c_st6 := by decide
theorem zc7 : ziter 1024 (pack c_st6) = pack c_st7 := by decide
theorem zc8 : ziter 1024 (pack c_st7) = pack c_st8 := by decide

theorem zs1 : ziter 1024 (pack s_st0) = pack s_st1 := by decide
theorem zs2 : ziter 1024 (pack s_st1) = pack s_st2 := by decide
theorem zs3 : ziter 1024 (pack s_st2) = pack s_st3 := by decide
theorem zs4 : ziter 1024 (pack s_st3) = pack s_st4 := by decide
theorem zs5 : ziter 1024 (pack s_st4) = pack s_st5 := by decide
theorem zs6 : ziter 1024 (pack s_st5) = pack s_st6 := by decide
theorem zs7 : ziter 1024 (pack s_st6) = pack s_st7 := by decide
theorem zs8 : ziter 1024 (pack s_st7) = pack s_st8 := by decide

theorem zloop_chunk (a b : HState) (hab : ziter 1024 (pack a) = pack b)
    (ha : HBounded a) (hb : HBounded b) : zloop 1024 a = b := by
  apply pack_inj _ _ (zloop_bounded 1023 a) hb
  rw [← ziter_eq 1024 a ha]
  exact hab

theorem zloop_full (st0 st1 st2 st3 st4 st5 st6 st7 st8 : HState)
    (e1 : zloop 1024 st0 = st1) (e2 : zloop 1024 st1 = st2)
    (e3 : zloop 1024 st2 = st3) (e4 : zloop 1024 st3 = st4)
    (e5 : zloop 1024 st4 = st5) (e6 : zloop 1024 st5 = st6)
    (e7 : zloop 1024 st6 = st7) (e8 : zloop 1024 st7 = st8) :
    zloop 8192 st0 = st8 := by
  have h1 := zloop_add 7168 1024 st0
  norm_num at h1
  rw [e1] at h1
  have h2 := zloop_add 6144 1024 st1
  norm_num at h2
  rw [e2] at h2
  have h3 := zloop_add 5120 1024 st2
  norm_num at h3
  rw [e3] at h3
  have h4 := zloop_add 4096 1024 st3
  norm_num at h4
  rw [e4] at h4
  have h5 := zloop_add 3072 1024 st4
  norm_num at h5
  rw [e5] at h5
  have h6 := zloop_add 2048 1024 st5
  norm_num at h6
  rw [e6] at h6
  have h7 := zloop_add 1024 1024 st6
  norm_num at h7
  rw [e7] at h7
  rw [h1, h2, h3, h4, h5, h6, h7, e8]

theorem zloop_c : zloop 8192 c_st0 = c_st8 :=
  zloop_full c_st0 c_st1 c_st2 c_st3 c_st4 c_st5 c_st6 c_st7 c_st8
    (zloop_chunk _ _ zc1 (by decide) (by decide))
    (zloop_chunk _ _ zc2 (by decide) (by decide))
    (zloop_chunk _ _ zc3 (by decide) (by decide))
    (zloop_chunk _ _ zc4 (by decide) (by decide))
    (zloop_chunk _ _ zc5 (by decide) (by decide))
    (zloop_chunk _ _ zc6 (by decide) (by decide))
    (zloop_chunk _ _ zc7 (by decide) (by decide))
    (zloop_chunk _ _ zc8 (by decide) (by decide))

theorem zloop_s : zloop 8192 s_st0 = s_st8 :=
  zloop_full s_st0 s_st1 s_st2 s_st3 s_st4 s_st5 s_st6 s_st7 s_st8
    (zloop_chunk _ _ zs1 (by decide) (by decide))
    (zloop_chunk _ _ zs2 (by decide) (by decide))
    (zloop_chunk _ _ zs3 (by decide) (by decide))
    (zloop_chunk _ _ zs4 (by decide) (by decide))
    (zloop_chunk _ _ zs5 (by decide) (by decide))
    (zloop_chunk _ _ zs6 (by decide) (by decide))
    (zloop_chunk _ _ zs7 (by decide) (by decide))
    (zloop_chunk _ _ zs8 (by decide) (by decide))

theorem custom_hash_v2_at_65536_zeros :
    custom_hash_v2 (List.replicate 65536 0) =
      [189, 230, 63, 59, 249, 200, 200, 32, 222, 18, 106, 250, 88, 185, 132, 25] := by
  have h1 : custom_hash_v2 (List.replicate 65536 0) =
      hash_finalize 65536 (hash_blocks (65536 / 8) (List.replicate 65536 0)
        ⟨1831565813 ^^^ 65536, 461845907 ^^^ (65536 <<< 8),
          2246822507 ^^^ (65536 <<< 16), 3266489909 ^^^ (65536 <<< 24)⟩) := by
    simp only [custom_hash_v2, List.length_replicate]
  rw [h1]
  have hc0 : (⟨1831565813 ^^^ 65536, 461845907 ^^^ (65536 <<< 8),
      2246822507 ^^^ (65536 <<< 16), 3266489909 ^^^ (65536 <<< 24)⟩ : HState) = c_st0 := by
    decide
  rw [hc0]
  rw [(by norm_num : (65536 : Nat) / 8 = 8192)]
  rw [hash_blocks_replicate_zero 8192 65536 c_st0 (by norm_num)]
  rw [zloop_c]
  decide

theorem spec_digest_mixer_at_65536_zeros :
    spec_digest_mixer (List.replicate 65536 0) =
      [213, 17, 4, 163, 230, 211, 1, 250, 100, 211, 99, 58, 255, 20, 154, 98] := by
  have h1 : spec_digest_mixer (List.replicate 65536 0) =
      hash_finalize (List.replicate 65536 0).length
        (spec_blocks ((List.replicate 65536 0).length / 8) (List.replicate 65536 0)
          ⟨mask32 (1831565813 ^^^ (List.replicate 65536 0).length),
            mask32 (461845907 ^^^ ((List.replicate 65536 0).length <<< 8)),
            mask32 (2246822507 ^^^ ((List.replicate 65536 0).length <<< 16)),
            mask32 (3266489909 ^^^ ((List.replicate 65536 0).length <<< 24))⟩) := rfl
  rw [List.length_replicate] at h1
  rw [h1, spec_blocks_eq_hash_blocks]
  have hs0 : (⟨mask32 (1831565813 ^^^ 65536), mask32 (461845907 ^^^ (65536 <<< 8)),
      mask32 (2246822507 ^^^ (65536 <<< 16)),
      mask32 (3266489909 ^^^ (65536 <<< 24))⟩ : HState) = s_st0 := by
    decide
  rw [hs0]
  rw [(by norm_num : (65536 : Nat) / 8 = 8192)]
  rw [hash_blocks_replicate_zero 8192 65536 s_st0 (by norm_num)]
  rw [zloop_s]
  decide

/-- C1 counterexample: on the 65536 zero-byte input (length a multiple of 8),
the code's `_custom_hash_v2` and the spec's masked algorithm disagree: the
unmasked `length <<< 16` fold leaves bit 32 set in `s2`, which the first
round's rotation folds back into the low 32 bits. -/
theorem C1_counterexample :
    custom_hash_v2 (List.replicate 65536 0) ≠
      spec_digest_mixer (List.replicate 65536 0) := by
  rw [custom_hash_v2_at_65536_zeros, spec_digest_mixer_at_65536_zeros]
  decide

end Xhshow
